import Mathlib

/-!
Shallow embedding of the unit-lifecycle components of the radical.pilot
sources, together with theorems settling the specification claims about
them.

Embedded components:
* `RoundRobinScheduler.schedule` (src/radical/pilot/scheduler/round_robin.py)
* `Default.work` of the UMGR output staging component
  (src/radical/pilot/umgr/staging_output/default.py)
* `Runjob.construct_command` (src/radical/pilot/agent/launch_method/archive/runjob.py)
* the unit state machine and the cancellation protocol (modelled from the
  spec, sections 4.4 and 4.6: the implementation of `cancel_units` is not
  part of the sources, only an example caller is).
-/

/- ------------------------------------------------------------------ -/
/- Round-robin scheduler                                              -/
/- ------------------------------------------------------------------ -/

/-- The cursor reset at the top of each loop iteration of
`RoundRobinScheduler.schedule` (round_robin.py lines 64-65): the cursor
is set back to 0 whenever it has reached the end of the pilot list. -/
def startIdx (n idx : Nat) : Nat := if n ≤ idx then 0 else idx

/-- The loop body of `RoundRobinScheduler.schedule` (round_robin.py lines
62-69), run over the whole unit list.  The scheduler object's persistent
cursor `self._idx` is passed in explicitly and returned.  The first
component of the result is the sequence of assignment statements
`schedule[units][unit] = pilot_ids[self._idx]` executed by the loop, in
order; the second is the final cursor.  Indexing `pilot_ids[self._idx]`
is modelled with `getElem?`, a `none` lookup standing for a Python
`IndexError`. -/
def scheduleLoop (pilot_ids : List String) : Nat → List String →
    Except String (List (String × String) × Nat)
  | idx, [] => Except.ok ([], idx)
  | idx, u :: us =>
    let idx1 := startIdx pilot_ids.length idx
    match pilot_ids[idx1]? with
    | none => Except.error ("IndexError: list index out of range")
    | some p =>
      match scheduleLoop pilot_ids (idx1 + 1) us with
      | Except.error e => Except.error e
      | Except.ok (tr, fin) => Except.ok ((u, p) :: tr, fin)

/-- The value of `schedule[units]` after the loop of round_robin.py lines
62-69: the dictionary is re-created (`schedule[units] = dict()`) on every
iteration, so after the loop it holds only the assignment of the last
unit; if the loop never ran, the key `units` was never set (`none`). -/
def unitsDict (tr : List (String × String)) : Option (List (String × String)) :=
  tr.getLast?.map (fun x => [x])

/-- `RoundRobinScheduler.schedule` (round_robin.py lines 41-71).  Inputs:
the pilot ids returned by `self.manager.list_pilots()`, the persistent
cursor `self._idx`, and the unit list.  Returns the `units` entry of the
returned dictionary together with the new cursor, or the raised error. -/
def schedule (pilot_ids : List String) (idx : Nat) (units : List String) :
    Except String (Option (List (String × String)) × Nat) :=
  if pilot_ids.length = 0 then
    Except.error ("RuntimeError: Unit scheduler cannot operate on empty pilot set")
  else
    (scheduleLoop pilot_ids idx units).map (fun r => (unitsDict r.1, r.2))

/-- The cursor value after scheduling `len` units starting from cursor
`idx` over `n` pilots. -/
def endIdx (n idx : Nat) : Nat → Nat
  | 0 => idx
  | Nat.succ m => (startIdx n idx + m) % n + 1

/-- The assignment sequence described by the spec: pilots are visited in
a fixed cyclic order, the k-th unit examined receives the pilot at
position (start + k) mod n, independent of load.  Written from the
spec's words, to be compared with `scheduleLoop`. -/
def specCyclicAssign (pilot_ids : List String) (idx : Nat) (units : List String) :
    List (String × String) :=
  List.zipWith
    (fun k u => (u, pilot_ids.getD ((startIdx pilot_ids.length idx + k) % pilot_ids.length) ("")))
    (List.range units.length) units

/- ------------------------------------------------------------------ -/
/- UMGR output staging component (Default.work)                       -/
/- ------------------------------------------------------------------ -/

/-- The unit states that `Default.work` can advance a unit to, plus the
values a unit's `target_state` field can carry
(src/radical/pilot/states.py is external; the names are those referenced
by default.py). -/
inductive CUState
  | UMGR_STAGING_OUTPUT
  | PENDING_OUTPUT_STAGING
  | DONE
  | FAILED
  | CANCELED
deriving DecidableEq

/-- One output staging directive, `cu[UMGR_Output_Directives][i]`
(default.py lines 95-139). -/
structure StagingDirective where
  source : String
  target : String
  action : String
deriving DecidableEq

/-- The fields of a compute unit record read by `Default.work` that
decide its final state. -/
structure CUnit where
  uid          : String
  target_state : CUState
  directives   : List StagingDirective
deriving DecidableEq

/-- The names bound at module level in
src/radical/pilot/umgr/staging_output/default.py (its imports and the
two dunder assignments, plus the class it defines).  Note that `rs`,
`LINK`, `COPY` and `MOVE` are not among them, and none of them is a
Python builtin either. -/
def moduleGlobals : List String :=
  ["__copyright__", "__license__", "os", "shutil", "ru", "rp", "rpu", "rps", "rpc",
   "UMGRStagingOutputComponent", "Default"]

/-- Whether a name resolves at module scope in default.py (the locals of
`work` bind none of the names the directive body needs either). -/
def nameDefined (n : String) : Bool := moduleGlobals.contains n

/-- The body of the per-directive loop of `Default.work` (default.py
lines 95-142).  Its first evaluated expression, `rs.Url(...)` on line
105, looks up the name `rs`; an unresolved name raises a `NameError`.
Everything past that point is filesystem interaction, abstracted by
`fsOutcome` (the outcome the filesystem operations would have). -/
def applyDirective (fsOutcome : StagingDirective → Except String Unit)
    (d : StagingDirective) : Except String Unit :=
  if nameDefined ("rs") then fsOutcome d
  else Except.error ("NameError: name rs is not defined")

/-- The `try` block of `Default.work` (default.py lines 93-146): the
directives are applied in declaration order and the first raised
exception aborts the block. -/
def stageDirectives (fsOutcome : StagingDirective → Except String Unit) :
    List StagingDirective → Except String Unit
  | [] => Except.ok ()
  | d :: ds =>
    match applyDirective fsOutcome d with
    | Except.ok _ => stageDirectives fsOutcome ds
    | Except.error e => Except.error e

/-- The state `Default.work` finally advances a unit to (default.py
lines 88-154).  A unit whose target state is not DONE is advanced
directly to that target state; otherwise the directives are staged and
the unit is advanced to PENDING_OUTPUT_STAGING on success
(line 152) and to FAILED if the `try` block raised (lines 144-154).
(Line 45 first advances every unit to UMGR_STAGING_OUTPUT; only the
final advance is returned here.) -/
def work (fsOutcome : StagingDirective → Except String Unit) (cu : CUnit) : CUState :=
  if cu.target_state ≠ CUState.DONE then cu.target_state
  else
    match stageDirectives fsOutcome cu.directives with
    | Except.ok _ => CUState.PENDING_OUTPUT_STAGING
    | Except.error _ => CUState.FAILED

/-- A filesystem oracle on which every staging operation would succeed. -/
def fsOk : StagingDirective → Except String Unit := fun _ => Except.ok ()

/- ------------------------------------------------------------------ -/
/- Runjob launch method (construct_command)                           -/
/- ------------------------------------------------------------------ -/

/-- The `lm_info` sub-dictionary of a slot as read by runjob.py; a
`none` field stands for an absent key. -/
structure LMInfo where
  cores_per_node : Option Nat
  gpus_per_node  : Option Nat
deriving DecidableEq

/-- The slot dictionary `t[slots]` as read by runjob.py lines 47-60; a
`none` field stands for an absent key. -/
structure Slots where
  loadl_bg_block      : Option String
  sub_block_shape_str : Option String
  corner_node         : Option String
  lm_info             : Option LMInfo
deriving DecidableEq

/-- The task description fields read by runjob.py lines 39-44. -/
structure TaskDescription where
  executable    : String
  cpu_processes : Nat
  gpu_processes : Nat
  arguments     : List String
deriving DecidableEq

/-- The task record `t` passed to `construct_command`. -/
structure RPTask where
  description : TaskDescription
  slots       : Slots
deriving DecidableEq

/-- The exceptions `construct_command` can raise: the `RuntimeError` of
line 53, the `ValueError` of line 66, and the `ZeroDivisionError` Python
raises on line 63 when `cores_per_node` is 0. -/
inductive PyError
  | runtimeError (msg : String)
  | valueError (msg : String)
  | zeroDivisionError
deriving DecidableEq

/-- The attributes of the `Runjob` object that `construct_command`
reads: `self.name` (from the LaunchMethod base class), the
`self.launch_command` found by `ru.which(runjob)`, and the inherited
`self._create_arg_string` helper (external to this module). -/
structure RunjobCfg where
  name           : String
  launch_command : String
  arg_string     : List String → String

/-- Python repr of the `lm_info` dictionary, listing its present keys. -/
def lmInfoRepr (li : LMInfo) : String :=
  "\x7b" ++ String.intercalate (", ")
    ((li.cores_per_node.map (fun c => "cores_per_node: " ++ toString c)).toList ++
     (li.gpus_per_node.map (fun g => "gpus_per_node: " ++ toString g)).toList) ++ "\x7d"

/-- Python repr of the slot dictionary as interpolated into the
`RuntimeError` message of runjob.py line 53: it lists the keys that are
present (in a fixed order), not the keys that are missing. -/
def slotsRepr (s : Slots) : String :=
  "\x7b" ++ String.intercalate (", ")
    ((s.loadl_bg_block.map (fun v => "loadl_bg_block: " ++ v)).toList ++
     (s.sub_block_shape_str.map (fun v => "sub_block_shape_str: " ++ v)).toList ++
     (s.corner_node.map (fun v => "corner_node: " ++ v)).toList ++
     (s.lm_info.map (fun v => "lm_info: " ++ lmInfoRepr v)).toList) ++ "\x7d"

/-- `os.path.basename`: the component after the last slash. -/
def basename (p : String) : String := ((p.splitOn ("/")).getLast?).getD p

/-- `Runjob.construct_command` (runjob.py lines 36-98).  The slot
membership checks of lines 47-54 are the nested matches (Python `or`
short-circuits, so the nested `lm_info` keys are only tested when
`lm_info` itself is present); the divisibility check of lines 63-66
comes next; the command string is then assembled exactly as on lines
69-96, and the function returns the pair of line 98 whose second
component is the literal `None`.  The argument `launch_script_hop` is
never read. -/
def construct_command (cfg : RunjobCfg) (t : RPTask) (launch_script_hop : Option String) :
    Except PyError (String × Option String) :=
  let td := t.description
  let slots := t.slots
  let task_cores := td.cpu_processes + td.gpu_processes
  let task_argstr := cfg.arg_string td.arguments
  match slots.loadl_bg_block, slots.sub_block_shape_str, slots.corner_node, slots.lm_info with
  | some loadl_bg_block, some sub_block_shape_str, some corner_node, some lm_info =>
    match lm_info.cores_per_node, lm_info.gpus_per_node with
    | some cores_per_node, some _gpus_per_node =>
      if cores_per_node = 0 then Except.error PyError.zeroDivisionError
      else if task_cores % cores_per_node ≠ 0 then
        Except.error (PyError.valueError
          ("Num cores (" ++ toString task_cores ++ ") is not a multiple of " ++
           toString cores_per_node ++ "!"))
      else
        let task_exec :=
          if basename td.executable = td.executable then
            "`which " ++ td.executable ++ "`"
          else td.executable
        let runjob_command :=
          cfg.launch_command
            ++ " --ranks-per-node " ++ toString (min cores_per_node task_cores)
            ++ " --block " ++ loadl_bg_block
            ++ " --corner " ++ corner_node
            ++ " --shape " ++ sub_block_shape_str
            ++ " : " ++ task_exec
            ++ (if task_argstr ≠ "" then " " ++ task_argstr else "")
        Except.ok (runjob_command, none)
    | _, _ =>
      Except.error (PyError.runtimeError
        ("insufficient information to launch via " ++ cfg.name ++ ": " ++ slotsRepr slots))
  | _, _, _, _ =>
    Except.error (PyError.runtimeError
      ("insufficient information to launch via " ++ cfg.name ++ ": " ++ slotsRepr slots))

/-- Whether any of the slot keys required by runjob.py lines 47-52 is
absent. -/
def requiredMissing (s : Slots) : Bool :=
  s.loadl_bg_block.isNone || s.sub_block_shape_str.isNone || s.corner_node.isNone ||
  (match s.lm_info with
   | none => true
   | some li => li.cores_per_node.isNone || li.gpus_per_node.isNone)

/-- Whether `pat` occurs as a contiguous substring of the second list. -/
def occursIn (pat : List Char) : List Char → Bool
  | [] => pat.isEmpty
  | c :: rest => pat.isPrefixOf (c :: rest) || occursIn pat rest

/-- Whether `pat` occurs as a contiguous substring of `s`. -/
def strOccurs (pat s : String) : Bool := occursIn pat.toList s.toList

/-- Projection: the message of a raised error (empty for a normal
return or a ZeroDivisionError). -/
def errText : Except PyError (String × Option String) → String
  | Except.error (PyError.runtimeError m) => m
  | Except.error (PyError.valueError m) => m
  | _ => ""

/-- Projection: whether the result is a raised RuntimeError. -/
def isRuntimeError : Except PyError (String × Option String) → Bool
  | Except.error (PyError.runtimeError _) => true
  | _ => false

/- ------------------------------------------------------------------ -/
/- Unit state machine and cancellation (modelled from the spec)        -/
/- ------------------------------------------------------------------ -/

/-- Modelled from the spec: the unit state machine of section 4.4.  The
implementation behind `umgr.cancel_units` is not among the sources; only
its caller examples/misc/task_cancelation.py is. -/
inductive UnitState
  | NEW
  | SCHEDULING
  | LAUNCHING
  | EXECUTING
  | STAGING_OUTPUT
  | DONE
  | FAILED
  | CANCELED
deriving DecidableEq

/-- Modelled from the spec: DONE, FAILED and CANCELED are terminal; no
transitions leave them (section 4.4). -/
def isTerminal : UnitState → Bool
  | UnitState.DONE => true
  | UnitState.FAILED => true
  | UnitState.CANCELED => true
  | _ => false

/-- Modelled from the spec, section 4.6: a stage receiving a
cancellation request for a unit it holds advances the unit to CANCELED
and publishes that transition; a unit already in a terminal state is
unaffected (a no-op, not an error).  The boolean records whether a
CANCELED transition was published. -/
def cancelUnit (s : UnitState) : UnitState × Bool :=
  if isTerminal s then (s, false) else (UnitState.CANCELED, true)

/-- Two consecutive cancellation requests for the same unit: final state
and the number of CANCELED transitions published. -/
def cancelTwice (s : UnitState) : UnitState × Nat :=
  let r1 := cancelUnit s
  let r2 := cancelUnit r1.1
  (r2.1, (if r1.2 then 1 else 0) + (if r2.2 then 1 else 0))

/- ------------------------------------------------------------------ -/
/- Concrete inputs used to instantiate the theorems                   -/
/- ------------------------------------------------------------------ -/

/-- A concrete Runjob configuration. -/
def cfg0 : RunjobCfg :=
  { name := "Runjob", launch_command := "runjob", arg_string := fun _ => "" }

/-- A slot in which only the `corner_node` key is absent. -/
def slotsNoCorner : Slots :=
  { loadl_bg_block := some "B1", sub_block_shape_str := some "1x1x1x1x1",
    corner_node := none,
    lm_info := some { cores_per_node := some 16, gpus_per_node := some 0 } }

/-- A slot in which every required key is present, with 16 cores per
node. -/
def slotsFull : Slots :=
  { loadl_bg_block := some "B1", sub_block_shape_str := some "1x1x1x1x1",
    corner_node := some "N0",
    lm_info := some { cores_per_node := some 16, gpus_per_node := some 0 } }

/-- A task description requesting `c` CPU processes. -/
def tdCores (c : Nat) : TaskDescription :=
  { executable := "hostname", cpu_processes := c, gpu_processes := 0, arguments := [] }

/-- A concrete staging directive. -/
def dirCopy : StagingDirective :=
  { source := "out.dat", target := "staging:///out.dat", action := "Copy" }

/- ------------------------------------------------------------------ -/
/- Theorems: round-robin scheduler                                    -/
/- ------------------------------------------------------------------ -/

theorem startIdx_lt (n idx : Nat) (h : 0 < n) : startIdx n idx < n := by
  unfold startIdx
  split <;> omega

theorem idxStep (n j k : Nat) (hj : j < n) :
    (j + (k + 1)) % n = (startIdx n (j + 1) + k) % n := by
  unfold startIdx
  split
  · have h1 : j + (k + 1) = n + k := by omega
    rw [h1, Nat.add_mod_left, Nat.zero_add]
  · have h1 : j + (k + 1) = j + 1 + k := by omega
    rw [h1]

theorem specCyclicAssign_cons (pilot_ids : List String) (idx : Nat) (u : String)
    (us : List String) (h : 0 < pilot_ids.length) :
    specCyclicAssign pilot_ids idx (u :: us) =
      (u, pilot_ids.getD (startIdx pilot_ids.length idx) ("")) ::
        specCyclicAssign pilot_ids (startIdx pilot_ids.length idx + 1) us := by
  have hj := startIdx_lt pilot_ids.length idx h
  unfold specCyclicAssign
  rw [List.length_cons, List.range_succ_eq_map, List.zipWith_cons_cons,
      List.zipWith_map_left]
  congr 1
  · rw [Nat.add_zero, Nat.mod_eq_of_lt hj]
  · congr 1
    funext k v
    rw [Nat.succ_eq_add_one, idxStep pilot_ids.length (startIdx pilot_ids.length idx) k hj]

theorem endIdx_succ (n idx m : Nat) (h : 0 < n) :
    endIdx n idx (m + 1) = endIdx n (startIdx n idx + 1) m := by
  have hj := startIdx_lt n idx h
  cases m with
  | zero =>
    simp only [endIdx]
    simp [Nat.mod_eq_of_lt hj]
  | succ m =>
    simp only [endIdx]
    rw [idxStep n (startIdx n idx) m hj]

theorem scheduleLoop_eq (pilot_ids : List String) (h : pilot_ids ≠ []) :
    ∀ (units : List String) (idx : Nat),
      scheduleLoop pilot_ids idx units =
        Except.ok (specCyclicAssign pilot_ids idx units,
                   endIdx pilot_ids.length idx units.length) := by
  have hn : 0 < pilot_ids.length := List.length_pos.mpr h
  intro units
  induction units with
  | nil =>
    intro idx
    simp [scheduleLoop, specCyclicAssign, endIdx]
  | cons u us ih =>
    intro idx
    have hj := startIdx_lt pilot_ids.length idx hn
    simp only [scheduleLoop]
    rw [List.getElem?_eq_getElem hj, ih (startIdx pilot_ids.length idx + 1),
        specCyclicAssign_cons pilot_ids idx u us hn, List.length_cons,
        endIdx_succ pilot_ids.length idx us.length hn,
        List.getD_eq_getElem pilot_ids ("") hj]

theorem scheduleLoop_append (pilot_ids : List String) (h : pilot_ids ≠ []) :
    ∀ (us : List String) (idx : Nat) (vs : List String)
      (t1 : List (String × String)) (f1 : Nat)
      (t2 : List (String × String)) (f2 : Nat),
      scheduleLoop pilot_ids idx us = Except.ok (t1, f1) →
      scheduleLoop pilot_ids f1 vs = Except.ok (t2, f2) →
      scheduleLoop pilot_ids idx (us ++ vs) = Except.ok (t1 ++ t2, f2) := by
  have hn : 0 < pilot_ids.length := List.length_pos.mpr h
  intro us
  induction us with
  | nil =>
    intro idx vs t1 f1 t2 f2 h1 h2
    simp only [scheduleLoop, Except.ok.injEq, Prod.mk.injEq] at h1
    rw [List.nil_append, ← h1.1, List.nil_append, h1.2]
    exact h2
  | cons u us ih =>
    intro idx vs t1 f1 t2 f2 h1 h2
    have hj := startIdx_lt pilot_ids.length idx hn
    rw [List.cons_append]
    simp only [scheduleLoop] at h1 ⊢
    rw [List.getElem?_eq_getElem hj] at h1 ⊢
    cases hrec : scheduleLoop pilot_ids (startIdx pilot_ids.length idx + 1) us with
    | error e =>
      rw [hrec] at h1
      exact absurd h1 (by simp)
    | ok r =>
      obtain ⟨tr, fin⟩ := r
      rw [hrec] at h1
      simp only [Except.ok.injEq, Prod.mk.injEq] at h1
      rw [ih (startIdx pilot_ids.length idx + 1) vs tr fin t2 f2 hrec (h1.2 ▸ h2)]
      rw [← h1.1, List.cons_append]

/-- C2: for every call with a non-empty pilot list of length n, units
are assigned pilots in fixed cyclic order: the trace of assignments
executed by the loop gives unit k the pilot at index
(start + k) mod n, where start is the cursor after its reset, so the
cursor advances by one per unit examined and wraps at n; and because
the cursor persists in the scheduler object, the assignments of two
consecutive calls (modelled by the second conjunct: scheduling
`us ++ vs` equals scheduling `us` and then `vs` from the returned
cursor) continue the same cyclic order. -/
theorem rr_schedule_cyclic_order (pilot_ids : List String) (idx : Nat)
    (units us vs : List String) (h : pilot_ids ≠ []) :
    scheduleLoop pilot_ids idx units =
      Except.ok (specCyclicAssign pilot_ids idx units,
                 endIdx pilot_ids.length idx units.length) ∧
    (∀ (t1 : List (String × String)) (f1 : Nat)
       (t2 : List (String × String)) (f2 : Nat),
       scheduleLoop pilot_ids idx us = Except.ok (t1, f1) →
       scheduleLoop pilot_ids f1 vs = Except.ok (t2, f2) →
       scheduleLoop pilot_ids idx (us ++ vs) = Except.ok (t1 ++ t2, f2)) := by
  constructor
  · exact scheduleLoop_eq pilot_ids h units idx
  · intro t1 f1 t2 f2 h1 h2
    exact scheduleLoop_append pilot_ids h us idx vs t1 f1 t2 f2 h1 h2

/-- Witness for C2: three pilots, cursor 5 (past the end, so it wraps to
0), four units assigned cyclically p1, p2, p3, p1; and a split call
(["a", "b"] then ["c", "d"] from the returned cursor) produces the same
assignments. -/
theorem rr_schedule_cyclic_order_witness :
    scheduleLoop ["p1", "p2", "p3"] 5 ["a", "b", "c", "d"] =
      Except.ok ([("a", "p1"), ("b", "p2"), ("c", "p3"), ("d", "p1")], 1) ∧
    scheduleLoop ["p1", "p2", "p3"] 5 (["a", "b"] ++ ["c", "d"]) =
      Except.ok ([("a", "p1"), ("b", "p2")] ++ [("c", "p3"), ("d", "p1")], 1) := by
  have h := rr_schedule_cyclic_order ["p1", "p2", "p3"] 5 ["a", "b", "c", "d"]
              ["a", "b"] ["c", "d"] (by decide)
  exact ⟨h.1.trans (by rfl), h.2 [("a", "p1"), ("b", "p2")] 2 [("c", "p3"), ("d", "p1")] 1
          (by rfl) (by rfl)⟩

/-- C3: `schedule` raises the RuntimeError "Unit scheduler cannot
operate on empty pilot set" exactly when the pilot list is empty: for
every unit list and cursor, an empty pilot list yields that error
(before any unit is examined: the error does not depend on the units),
and a non-empty pilot list always returns normally. -/
theorem rr_schedule_empty_pilots_iff (pilot_ids : List String) (idx : Nat)
    (units : List String) :
    (pilot_ids = [] →
      schedule pilot_ids idx units =
        Except.error ("RuntimeError: Unit scheduler cannot operate on empty pilot set")) ∧
    (pilot_ids ≠ [] →
      schedule pilot_ids idx units =
        Except.ok (unitsDict (specCyclicAssign pilot_ids idx units),
                   endIdx pilot_ids.length idx units.length)) := by
  constructor
  · intro he
    subst he
    simp [schedule]
  · intro hne
    unfold schedule
    rw [if_neg (by simpa [List.length_eq_zero] using hne)]
    rw [scheduleLoop_eq pilot_ids hne units idx]
    rfl

/-- Witness for C3: the empty pilot list raises; a singleton pilot list
returns normally. -/
theorem rr_schedule_empty_pilots_iff_witness :
    schedule [] 0 ["unit.0001"] =
      Except.error ("RuntimeError: Unit scheduler cannot operate on empty pilot set") ∧
    schedule ["pilot.0001"] 7 ["unit.0001"] =
      Except.ok (unitsDict (specCyclicAssign ["pilot.0001"] 7 ["unit.0001"]),
                 endIdx 1 7 1) :=
  ⟨(rr_schedule_empty_pilots_iff [] 0 ["unit.0001"]).1 rfl,
   (rr_schedule_empty_pilots_iff ["pilot.0001"] 7 ["unit.0001"]).2 (by decide)⟩

/-- C1 fails on the code: with one pilot and the two units unit.0001 and
unit.0002, the returned mapping holds only the last unit examined,
because the dictionary holding the assignments is re-created on every
loop iteration; unit.0001 is silently dropped. -/
theorem rr_schedule_drops_units :
    schedule ["pilot.0001"] 0 ["unit.0001", "unit.0002"] =
      Except.ok (some [("unit.0002", "pilot.0001")], 1) ∧
    ("unit.0001" ∉ List.map Prod.fst [("unit.0002", "pilot.0001")]) := by
  refine ⟨by rfl, by decide⟩

/- ------------------------------------------------------------------ -/
/- Theorems: UMGR output staging                                      -/
/- ------------------------------------------------------------------ -/

/-- C9: for every unit whose target state is DONE and whose directive
list is non-empty, `Default.work` advances the unit to FAILED whatever
the filesystem would have done, because the directive body references
the undefined name `rs` (and would next reference the equally undefined
LINK, COPY, MOVE), so processing the first directive raises an
exception that the handler turns into a failed staging outcome. -/
theorem staging_nonempty_directives_always_fail
    (fs : StagingDirective → Except String Unit) (cu : CUnit)
    (h1 : cu.target_state = CUState.DONE) (h2 : cu.directives ≠ []) :
    work fs cu = CUState.FAILED := by
  have hrs : nameDefined ("rs") = false := by rfl
  cases hd : cu.directives with
  | nil => exact absurd hd h2
  | cons d ds =>
    simp [work, h1, hd, stageDirectives, applyDirective, hrs]

/-- Witness for C9: a unit with target state DONE and one copy
directive ends FAILED even on a filesystem where every operation would
succeed. -/
theorem staging_nonempty_directives_always_fail_witness :
    work fsOk { uid := "unit.0003", target_state := CUState.DONE,
                directives := [dirCopy] } = CUState.FAILED :=
  staging_nonempty_directives_always_fail fsOk _ rfl (by decide)

/-- C4 fails on the code: a unit with target state DONE all of whose
staging directives apply successfully (here: the empty directive list)
is advanced to PENDING_OUTPUT_STAGING (default.py line 152), not to
DONE. -/
theorem staging_done_counterexample :
    work fsOk { uid := "unit.0000", target_state := CUState.DONE,
                directives := [] } = CUState.PENDING_OUTPUT_STAGING ∧
    CUState.PENDING_OUTPUT_STAGING ≠ CUState.DONE :=
  ⟨rfl, by decide⟩

/-- C4 (amended): for every unit whose target state is DONE and all of
whose staging directives apply successfully, `Default.work` advances the
unit to PENDING_OUTPUT_STAGING. -/
theorem staging_success_advances_pending_output
    (fs : StagingDirective → Except String Unit) (cu : CUnit)
    (h1 : cu.target_state = CUState.DONE)
    (h2 : stageDirectives fs cu.directives = Except.ok ()) :
    work fs cu = CUState.PENDING_OUTPUT_STAGING := by
  simp [work, h1, h2]

/-- Witness for the amended C4: a unit with target DONE and no
directives advances to PENDING_OUTPUT_STAGING. -/
theorem staging_success_advances_pending_output_witness :
    work fsOk { uid := "unit.0001", target_state := CUState.DONE,
                directives := [] } = CUState.PENDING_OUTPUT_STAGING :=
  staging_success_advances_pending_output fsOk _ rfl rfl

/-- C5: for every unit with target state DONE, if applying its staging
directives raises an error, the whole unit is advanced to FAILED; and
the failure is contained per unit: mapping `work` over a list of units
gives each unit an outcome computed from that unit alone. -/
theorem staging_failure_marks_unit_failed
    (fs : StagingDirective → Except String Unit) (cu : CUnit)
    (h1 : cu.target_state = CUState.DONE)
    (h2 : ∃ e, stageDirectives fs cu.directives = Except.error e) :
    work fs cu = CUState.FAILED ∧
    ∀ (us : List CUnit) (i : Nat),
      (us.map (work fs))[i]? = (us[i]?).map (work fs) := by
  constructor
  · obtain ⟨e, he⟩ := h2
    simp [work, h1, he]
  · intro us i
    simp

/-- Witness for C5: one directive raises (the NameError), the unit ends
FAILED. -/
theorem staging_failure_marks_unit_failed_witness :
    work fsOk { uid := "unit.0002", target_state := CUState.DONE,
                directives := [dirCopy] } = CUState.FAILED :=
  (staging_failure_marks_unit_failed fsOk
    { uid := "unit.0002", target_state := CUState.DONE, directives := [dirCopy] }
    rfl ⟨"NameError: name rs is not defined", rfl⟩).1

/- ------------------------------------------------------------------ -/
/- Theorems: Runjob construct_command                                 -/
/- ------------------------------------------------------------------ -/

/-- C6 fails on the code: invoked with a slot missing only the
`corner_node` key, `construct_command` does raise a RuntimeError, but
the error message does not name the missing key: it interpolates the
launcher name and the slot contents (the keys that are present), and
the string corner_node does not occur in it. -/
theorem runjob_missing_key_counterexample :
    isRuntimeError (construct_command cfg0
      { description := tdCores 16, slots := slotsNoCorner } none) = true ∧
    strOccurs ("corner_node") (errText (construct_command cfg0
      { description := tdCores 16, slots := slotsNoCorner } none)) = false :=
  ⟨rfl, by rfl⟩

/-- C6 (amended): whenever any of the required slot metadata keys
(loadl_bg_block, sub_block_shape_str, corner_node, lm_info, and inside
lm_info cores_per_node and gpus_per_node) is absent, `construct_command`
raises a RuntimeError whose message contains the launcher name and the
repr of the slot dictionary (its present keys) — it does not list the
missing keys by name. -/
theorem runjob_missing_key_error (cfg : RunjobCfg) (t : RPTask)
    (hop : Option String) (h : requiredMissing t.slots = true) :
    construct_command cfg t hop =
      Except.error (PyError.runtimeError
        ("insufficient information to launch via " ++ cfg.name ++ ": " ++
         slotsRepr t.slots)) := by
  rcases t with ⟨td, ⟨b, sh, cn, li⟩⟩
  cases li with
  | none =>
    cases b <;> cases sh <;> cases cn <;> rfl
  | some liv =>
    rcases liv with ⟨cpn, gpn⟩
    cases cpn with
    | none =>
      cases b <;> cases sh <;> cases cn <;> cases gpn <;> rfl
    | some c =>
      cases gpn with
      | none =>
        cases b <;> cases sh <;> cases cn <;> rfl
      | some g =>
        cases b with
        | none => cases sh <;> cases cn <;> rfl
        | some bv =>
          cases sh with
          | none => cases cn <;> rfl
          | some shv =>
            cases cn with
            | none => rfl
            | some cnv => simp [requiredMissing] at h

/-- Witness for the amended C6: the slot missing corner_node raises the
RuntimeError carrying the slot repr. -/
theorem runjob_missing_key_error_witness :
    construct_command cfg0 { description := tdCores 16, slots := slotsNoCorner } none =
      Except.error (PyError.runtimeError
        ("insufficient information to launch via " ++ cfg0.name ++ ": " ++
         slotsRepr slotsNoCorner)) :=
  runjob_missing_key_error cfg0 _ none rfl

/-- C7: with all required slot metadata present and cores_per_node
positive, if the task's total core count (cpu_processes +
gpu_processes) is not a multiple of cores_per_node,
`construct_command` raises a ValueError naming both the core count and
the cores-per-node value; if it is an exact multiple, the check passes
and a command is constructed (returned normally). -/
theorem runjob_core_multiple_check (cfg : RunjobCfg) (td : TaskDescription)
    (b sh cn : String) (c g : Nat) (hop : Option String) (hc : 0 < c) :
    ((td.cpu_processes + td.gpu_processes) % c ≠ 0 →
      construct_command cfg
        { description := td,
          slots := { loadl_bg_block := some b, sub_block_shape_str := some sh,
                     corner_node := some cn,
                     lm_info := some { cores_per_node := some c,
                                       gpus_per_node := some g } } } hop =
        Except.error (PyError.valueError
          ("Num cores (" ++ toString (td.cpu_processes + td.gpu_processes) ++
           ") is not a multiple of " ++ toString c ++ "!"))) ∧
    ((td.cpu_processes + td.gpu_processes) % c = 0 →
      ∃ cmd, construct_command cfg
        { description := td,
          slots := { loadl_bg_block := some b, sub_block_shape_str := some sh,
                     corner_node := some cn,
                     lm_info := some { cores_per_node := some c,
                                       gpus_per_node := some g } } } hop =
        Except.ok (cmd, none)) := by
  constructor
  · intro hmod
    simp only [construct_command]
    rw [if_neg (by omega), if_pos (by simpa using hmod)]
  · intro hmod
    exact ⟨_, by
      simp only [construct_command]
      rw [if_neg (by omega), if_neg (by simpa using hmod)]⟩

/-- Witness for C7: 17 cores against 16 cores per node raises the
ValueError naming 17 and 16. -/
theorem runjob_core_multiple_check_witness :
    construct_command cfg0 { description := tdCores 17, slots := slotsFull } none =
      Except.error (PyError.valueError
        ("Num cores (" ++ toString (17 + 0) ++ ") is not a multiple of " ++
         toString 16 ++ "!")) :=
  (runjob_core_multiple_check cfg0 (tdCores 17) "B1" "1x1x1x1x1" "N0" 16 0 none
    (by decide)).1 (by decide)

/-- C10: `construct_command` never reads its launch_script_hop
argument — the result is the same for any two hop values — and on every
input its result, when it is a normal return, carries `none` as the
second element (the hop remote command). -/
theorem runjob_hop_unused (cfg : RunjobCfg) (t : RPTask) (h1 h2 : Option String) :
    construct_command cfg t h1 = construct_command cfg t h2 ∧
    Except.map Prod.snd (construct_command cfg t h1) =
      Except.map (fun _ => (none : Option String)) (construct_command cfg t h1) := by
  constructor
  · rfl
  · rcases t with ⟨td, ⟨b, sh, cn, li⟩⟩
    cases li with
    | none => cases b <;> cases sh <;> cases cn <;> rfl
    | some liv =>
      rcases liv with ⟨cpn, gpn⟩
      cases cpn with
      | none => cases b <;> cases sh <;> cases cn <;> cases gpn <;> rfl
      | some c =>
        cases gpn with
        | none => cases b <;> cases sh <;> cases cn <;> rfl
        | some g =>
          cases b <;> cases sh <;> cases cn <;>
            first
              | rfl
              | (simp only [construct_command]
                 split
                 · rfl
                 · split
                   · rfl
                   · rfl)

/- ------------------------------------------------------------------ -/
/- Theorems: cancellation (modelled from the spec)                    -/
/- ------------------------------------------------------------------ -/

/-- C8: issuing a cancellation request twice for a unit that is not yet
terminal produces exactly one CANCELED transition and no error on the
second attempt; canceling a unit already in a terminal state (DONE,
FAILED or CANCELED) leaves it unchanged and publishes no transition — a
no-op, not an error. -/
theorem cancel_idempotent (s : UnitState) :
    (isTerminal s = false → cancelTwice s = (UnitState.CANCELED, 1)) ∧
    (isTerminal s = true → cancelUnit s = (s, false) ∧ cancelTwice s = (s, 0)) := by
  cases s <;> exact ⟨by decide, by decide⟩

/-- Witness for C8: an EXECUTING unit canceled twice undergoes one
CANCELED transition; a DONE unit is unaffected. -/
theorem cancel_idempotent_witness :
    cancelTwice UnitState.EXECUTING = (UnitState.CANCELED, 1) ∧
    (cancelUnit UnitState.DONE = (UnitState.DONE, false) ∧
     cancelTwice UnitState.DONE = (UnitState.DONE, 0)) :=
  ⟨(cancel_idempotent UnitState.EXECUTING).1 rfl,
   (cancel_idempotent UnitState.DONE).2 rfl⟩
